import Mathlib

/-!
Verification of the workflow-orchestration core of the AI-Enrollment-assistant
repository (`app/core/workflow_controller.py`), as a shallow embedding.

Modelling conventions:
* Python `dict` (insertion ordered) becomes an association list `List (String × α)`
  together with `dictGet` / `dictSet` / `dictRemove` mirroring `d[k]`, `d[k] = v`
  and `del d[k]`.
* Wall-clock instants become `Nat` parameters called `now`.  The source declares
  the field defaults `timestamp: datetime = datetime.now()` (pydantic model) and
  `start_time: datetime = datetime.now()` (dataclass); Python evaluates such a
  default ONCE, when the class statement itself runs, so every event and every
  session built without an explicit argument receives the same instant.  That
  instant is modelled by the constant `classDefTime`; the `now` parameter records
  when the construction actually happened and is (faithfully to the source)
  ignored by the constructors.
* The collaborator services `app/services/browser.py` and `app/services/email.py`
  are not part of the supplied sources; their result shapes are modelled from the
  spec's capability contracts and passed to the handlers as explicit parameters,
  so every theorem quantifies over collaborator behaviour.
* Event listeners are arbitrary callbacks.  A listener is modelled by an opaque
  identity (`Nat`) plus a behaviour function `lb : Nat → WorkflowEvent → Bool`
  telling whether that callback raises on a given event; the observable effect of
  notification is recorded in a `log` of `Notification` records.
-/

/-- The `WorkflowState` enumeration of `workflow_controller.py`. -/
inductive WorkflowState where
  | IDLE
  | LISTENING
  | PROCESSING_COMMAND
  | AUTHENTICATING
  | NAVIGATING
  | READING_EMAIL
  | GENERATING_RESPONSE
  | REVIEWING
  | SUBMITTING
  | ERROR
deriving DecidableEq, Repr

/-- The email record produced by the email collaborator; the controller reads
`result["email"]["email_id"]` and `result["email"]["subject"]`. -/
structure EmailRecord where
  email_id : String
  subject : String
deriving DecidableEq, Repr

/-- Structured payloads the controller stores in an event's `data` field:
`{"command": ...}`, `{"email": ...}` or `{"draft_response": ...}`. -/
inductive EventData where
  | command (cmd : String)
  | email (rec : EmailRecord)
  | draftResponse (draft : String)
deriving DecidableEq, Repr

/-- Python truthiness of an `Optional[str]`: `None` and `""` are falsy.  The
source guards read `if not session.current_email_id:` and similar. -/
def pyTruthy : Option String → Bool
  | none => false
  | some s => !s.isEmpty

/-- Python's `str(...)` of an `Optional[str]` as interpolated into an f-string:
`None` prints as the four characters `None`. -/
def pyOptStr : Option String → String
  | none => "None"
  | some s => s

/-- `hay` starts with `needle` (character lists). -/
def seqStartsWith : List Char → List Char → Bool
  | _, [] => true
  | [], _ :: _ => false
  | c :: cs, d :: ds => c = d && seqStartsWith cs ds

/-- `needle in hay` for character lists: Python substring containment. -/
def seqContains : List Char → List Char → Bool
  | [], needle => needle.isEmpty
  | c :: rest, needle => seqStartsWith (c :: rest) needle || seqContains rest needle

/-- Python `needle in hay` on strings. -/
def strContains (hay needle : String) : Bool :=
  seqContains hay.toList needle.toList

/-- Python `command.lower()`.  `Char.toLower` lowercases the ASCII range, which
covers the keyword matching the controller performs. -/
def lowerStr (s : String) : String :=
  String.mk (s.toList.map Char.toLower)

/-- The handler a command is dispatched to by `_process_command`. -/
inductive CommandHandler where
  | login
  | inbox
  | readEmail
  | generateResponse
  | submitResponse (send : Bool)
  | unknown
deriving DecidableEq, Repr

/-- The `if/elif` keyword-matching chain of
`WorkflowController._process_command`, as a pure classifier. -/
def classifyCommand (command : String) : CommandHandler :=
  let command_lower := lowerStr command
  if strContains command_lower ("login") || strContains command_lower ("log in") then
    CommandHandler.login
  else if strContains command_lower ("inbox") || strContains command_lower ("emails") then
    CommandHandler.inbox
  else if strContains command_lower ("read") &&
      (strContains command_lower ("email") || strContains command_lower ("message")) then
    CommandHandler.readEmail
  else if strContains command_lower ("generate") || strContains command_lower ("respond") ||
      strContains command_lower ("reply") then
    CommandHandler.generateResponse
  else if strContains command_lower ("submit") || strContains command_lower ("send") then
    CommandHandler.submitResponse true
  else if strContains command_lower ("save") && strContains command_lower ("draft") then
    CommandHandler.submitResponse false
  else
    CommandHandler.unknown

/-- Modelled from the spec: the dispatch table of section 4.1, an ordered list
of (predicate over the lowercased command, handler) rules. -/
def specDispatchRules : List ((String → Bool) × CommandHandler) :=
  [ (fun cl => strContains cl ("login") || strContains cl ("log in"), CommandHandler.login),
    (fun cl => strContains cl ("inbox") || strContains cl ("emails"), CommandHandler.inbox),
    (fun cl => strContains cl ("read") && (strContains cl ("email") || strContains cl ("message")),
      CommandHandler.readEmail),
    (fun cl => strContains cl ("generate") || strContains cl ("respond") || strContains cl ("reply"),
      CommandHandler.generateResponse),
    (fun cl => strContains cl ("submit") || strContains cl ("send"),
      CommandHandler.submitResponse true),
    (fun cl => strContains cl ("save") && strContains cl ("draft"),
      CommandHandler.submitResponse false) ]

/-- Modelled from the spec: top-to-bottom, first-match-wins evaluation of an
ordered rule list; no rule matching means the unknown-command outcome. -/
def firstMatch : List ((String → Bool) × CommandHandler) → String → CommandHandler
  | [], _ => CommandHandler.unknown
  | (p, h) :: rest, cl => if p cl then h else firstMatch rest cl

/-- The instant at which the Python class statements ran.  The source's field
defaults `timestamp: datetime = datetime.now()` and
`start_time: datetime = datetime.now()` are evaluated once, at class
definition, and shared by every subsequently constructed instance. -/
def classDefTime : Nat := 0

/-- The `WorkflowEvent` pydantic model. -/
structure WorkflowEvent where
  state : WorkflowState
  timestamp : Nat
  data : Option EventData := none
  message : Option String := none
deriving DecidableEq, Repr

/-- `WorkflowEvent(state=..., data=..., message=...)` as the controller builds
events: the `timestamp` argument is never passed, so the instance receives the
class-definition-time default, not the construction instant `now`. -/
def mkWorkflowEvent (now : Nat) (state : WorkflowState) (data : Option EventData)
    (message : Option String) : WorkflowEvent :=
  let _ := now
  { state := state, timestamp := classDefTime, data := data, message := message }

/-- The `WorkflowSession` dataclass. -/
structure WorkflowSession where
  session_id : String
  browser_session_id : Option String := none
  current_email_id : Option String := none
  current_state : WorkflowState := WorkflowState.IDLE
  draft_response : Option String := none
  start_time : Nat
  events : List WorkflowEvent := []
deriving DecidableEq, Repr

/-- `WorkflowSession(session_id=session_id)`: every field but the id defaults;
in particular `start_time` receives the class-definition-time default, not the
construction instant `now` (and `__post_init__` turns the `None` events default
into the empty list). -/
def mkWorkflowSession (now : Nat) (sid : String) : WorkflowSession :=
  let _ := now
  { session_id := sid, start_time := classDefTime }

/-- `WorkflowSession.add_event`: build the event, append it to the history,
assign `current_state`, and return the event. -/
def WorkflowSession.add_event (s : WorkflowSession) (now : Nat) (state : WorkflowState)
    (data : Option EventData := none) (message : Option String := none) :
    WorkflowSession × WorkflowEvent :=
  let event := mkWorkflowEvent now state data message
  ({ s with events := s.events ++ [event], current_state := state }, event)

/-- Modelled from the spec: the reply of a browser/email collaborator call
whose contract is a status dict (`{status, value-on-success | error}`), or a
raised fault (`fault`).  `app/services/browser.py` and `app/services/email.py`
are not among the supplied sources. -/
inductive CollabReply (α : Type) where
  | success (value : α)
  | failure (error : Option String)
  | fault (exc : String)
deriving DecidableEq, Repr

/-- Modelled from the spec: `MailAgent.fetch_or_read` returns an email record
together with a suggested reply (no failure status in its contract), or raises. -/
inductive ProcessEmailReply where
  | result (email : EmailRecord) (suggested_response : String)
  | fault (exc : String)
deriving DecidableEq, Repr

/-- The collaborator replies available to one dispatched command; each handler
consumes at most one field. -/
structure Collab where
  login_to_crm : CollabReply String
  navigate_to_inbox : CollabReply Unit
  process_email : ProcessEmailReply
  submit_draft : CollabReply Unit
deriving DecidableEq, Repr

/-- Whether a given listener callback raises when invoked on a given event. -/
abbrev ListenerBehavior := Nat → WorkflowEvent → Bool

/-- One listener invocation as recorded in the observable log: which callback,
with which event, and whether the callback raised (the raise is caught). -/
structure Notification where
  listener : Nat
  event : WorkflowEvent
  raised : Bool
deriving DecidableEq, Repr

/-- `WorkflowController._notify_listeners`: iterate over the registered
callbacks in registration order; each invocation's fault is caught inside the
loop body, so iteration always continues with the remaining callbacks. -/
def notify_listeners (lb : ListenerBehavior) : List Nat → WorkflowEvent → List Notification
  | [], _ => []
  | l :: rest, e => { listener := l, event := e, raised := lb l e } :: notify_listeners lb rest e

/-- Python `d[k]` lookup on an insertion-ordered dict as association list. -/
def dictGet {α : Type} : List (String × α) → String → Option α
  | [], _ => none
  | (k', v) :: rest, k => if k' = k then some v else dictGet rest k

/-- Python `d[k] = v`: replace the binding in place if the key is present,
otherwise append the new binding (insertion order). -/
def dictSet {α : Type} : List (String × α) → String → α → List (String × α)
  | [], k, v => [(k, v)]
  | (k', v') :: rest, k, v =>
      if k' = k then (k, v) :: rest else (k', v') :: dictSet rest k v

/-- Python `del d[k]`: drop the binding of the key. -/
def dictRemove {α : Type} : List (String × α) → String → List (String × α)
  | [], _ => []
  | (k', v') :: rest, k => if k' = k then rest else (k', v') :: dictRemove rest k

/-- The result dict a command handler returns.  The source returns
`{"status", "message"}` plus, on some success paths, an `"email"` record or a
`"draft_response"` text; the heterogeneous dict is flattened into optional
fields. -/
structure CmdResult where
  status : String
  message : String
  email : Option EmailRecord := none
  draft_response : Option String := none
deriving DecidableEq, Repr

/-- The output of one dispatched handler: the mutated session, the listener
notifications it emitted (in order), and the returned result dict. -/
structure HandlerOut where
  session : WorkflowSession
  notes : List Notification
  result : CmdResult
deriving DecidableEq, Repr

/-- The ubiquitous source pattern `session.add_event(...)` immediately followed
by `await self._notify_listeners(session.events[-1])`. -/
def stepEvent (lb : ListenerBehavior) (listeners : List Nat) (now : Nat)
    (s : WorkflowSession) (state : WorkflowState) (data : Option EventData)
    (message : Option String) : WorkflowSession × List Notification :=
  let (s', e) := s.add_event now state data message
  (s', notify_listeners lb listeners e)

/-- `WorkflowController._handle_login_command`.  The collaborator call is
`browser_service.login_to_crm(...)`; its reported status is inspected, and a
raised fault is caught by the handler's `except` clause. -/
def handleLogin (lb : ListenerBehavior) (listeners : List Nat) (now : Nat)
    (reply : CollabReply String) (s : WorkflowSession) : HandlerOut :=
  let (s1, n1) := stepEvent lb listeners now s WorkflowState.AUTHENTICATING none
    (some ("Authenticating to Slate CRM"))
  match reply with
  | CollabReply.success handle =>
      let s2 := { s1 with browser_session_id := some handle }
      let (s3, n2) := stepEvent lb listeners now s2 WorkflowState.LISTENING none
        (some ("Authentication successful, listening for next command"))
      { session := s3, notes := n1 ++ n2,
        result := { status := "success", message := "Authentication successful" } }
  | CollabReply.failure err =>
      let (s2, n2) := stepEvent lb listeners now s1 WorkflowState.ERROR none
        (some ("Authentication failed: " ++ pyOptStr err))
      { session := s2, notes := n1 ++ n2,
        result := { status := "error", message := "Authentication failed" } }
  | CollabReply.fault exc =>
      let (s2, n2) := stepEvent lb listeners now s1 WorkflowState.ERROR none
        (some ("Error during authentication: " ++ exc))
      { session := s2, notes := n1 ++ n2,
        result := { status := "error", message := exc } }

/-- `WorkflowController._handle_inbox_command`: requires an authenticated
browser handle, then calls `browser_service.navigate_to_inbox`. -/
def handleInbox (lb : ListenerBehavior) (listeners : List Nat) (now : Nat)
    (reply : CollabReply Unit) (s : WorkflowSession) : HandlerOut :=
  if pyTruthy s.browser_session_id = false then
    let (s1, n1) := stepEvent lb listeners now s WorkflowState.ERROR none
      (some ("Cannot navigate to inbox: Not authenticated"))
    { session := s1, notes := n1,
      result := { status := "error", message := "Not authenticated" } }
  else
    let (s1, n1) := stepEvent lb listeners now s WorkflowState.NAVIGATING none
      (some ("Navigating to inbox"))
    match reply with
    | CollabReply.success _ =>
        let (s2, n2) := stepEvent lb listeners now s1 WorkflowState.LISTENING none
          (some ("Navigation successful, listening for next command"))
        { session := s2, notes := n1 ++ n2,
          result := { status := "success", message := "Navigation successful" } }
    | CollabReply.failure err =>
        let (s2, n2) := stepEvent lb listeners now s1 WorkflowState.ERROR none
          (some ("Navigation failed: " ++ pyOptStr err))
        { session := s2, notes := n1 ++ n2,
          result := { status := "error", message := "Navigation failed" } }
    | CollabReply.fault exc =>
        let (s2, n2) := stepEvent lb listeners now s1 WorkflowState.ERROR none
          (some ("Error during navigation: " ++ exc))
        { session := s2, notes := n1 ++ n2,
          result := { status := "error", message := exc } }

/-- `WorkflowController._handle_read_email_command`: requires an authenticated
browser handle, then calls `email_service.process_email`; a raised fault is
caught, and the spec contract of `fetch_or_read` has no failure status. -/
def handleReadEmail (lb : ListenerBehavior) (listeners : List Nat) (now : Nat)
    (reply : ProcessEmailReply) (s : WorkflowSession) : HandlerOut :=
  if pyTruthy s.browser_session_id = false then
    let (s1, n1) := stepEvent lb listeners now s WorkflowState.ERROR none
      (some ("Cannot read email: Not authenticated"))
    { session := s1, notes := n1,
      result := { status := "error", message := "Not authenticated" } }
  else
    let (s1, n1) := stepEvent lb listeners now s WorkflowState.READING_EMAIL none
      (some ("Reading email"))
    match reply with
    | ProcessEmailReply.result rec _ =>
        let s2 := { s1 with current_email_id := some rec.email_id }
        let (s3, n2) := stepEvent lb listeners now s2 WorkflowState.LISTENING
          (some (EventData.email rec)) (some ("Email read: " ++ rec.subject))
        { session := s3, notes := n1 ++ n2,
          result := { status := "success", message := "Email read successfully",
                      email := some rec } }
    | ProcessEmailReply.fault exc =>
        let (s2, n2) := stepEvent lb listeners now s1 WorkflowState.ERROR none
          (some ("Error reading email: " ++ exc))
        { session := s2, notes := n1 ++ n2,
          result := { status := "error", message := exc } }

/-- `WorkflowController._handle_generate_response_command`: requires a focused
email, then calls `email_service.process_email` on it. -/
def handleGenerateResponse (lb : ListenerBehavior) (listeners : List Nat) (now : Nat)
    (reply : ProcessEmailReply) (s : WorkflowSession) : HandlerOut :=
  if pyTruthy s.current_email_id = false then
    let (s1, n1) := stepEvent lb listeners now s WorkflowState.ERROR none
      (some ("Cannot generate response: No email selected"))
    { session := s1, notes := n1,
      result := { status := "error", message := "No email selected" } }
  else
    let (s1, n1) := stepEvent lb listeners now s WorkflowState.GENERATING_RESPONSE none
      (some ("Generating email response"))
    match reply with
    | ProcessEmailReply.result _ suggested =>
        let s2 := { s1 with draft_response := some suggested }
        let (s3, n2) := stepEvent lb listeners now s2 WorkflowState.REVIEWING
          (some (EventData.draftResponse suggested))
          (some ("Response generated, ready for review"))
        { session := s3, notes := n1 ++ n2,
          result := { status := "success", message := "Response generated",
                      draft_response := some suggested } }
    | ProcessEmailReply.fault exc =>
        let (s2, n2) := stepEvent lb listeners now s1 WorkflowState.ERROR none
          (some ("Error generating response: " ++ exc))
        { session := s2, notes := n1 ++ n2,
          result := { status := "error", message := exc } }

/-- `WorkflowController._handle_submit_response_command`: requires a focused
email and an existing draft, then calls `email_service.submit_draft`.  Only a
raised fault reaches the `except` clause; the reported status of the reply dict
is never inspected, so a reported failure takes the success path. -/
def handleSubmitResponse (lb : ListenerBehavior) (listeners : List Nat) (now : Nat)
    (reply : CollabReply Unit) (send : Bool) (s : WorkflowSession) : HandlerOut :=
  if pyTruthy s.current_email_id = false then
    let (s1, n1) := stepEvent lb listeners now s WorkflowState.ERROR none
      (some ("Cannot submit response: No email selected"))
    { session := s1, notes := n1,
      result := { status := "error", message := "No email selected" } }
  else if pyTruthy s.draft_response = false then
    let (s1, n1) := stepEvent lb listeners now s WorkflowState.ERROR none
      (some ("Cannot submit response: No draft response created"))
    { session := s1, notes := n1,
      result := { status := "error", message := "No draft response created" } }
  else
    let (s1, n1) := stepEvent lb listeners now s WorkflowState.SUBMITTING none
      (some ("Submitting response as " ++ (if send then "email" else "draft")))
    match reply with
    | CollabReply.fault exc =>
        let (s2, n2) := stepEvent lb listeners now s1 WorkflowState.ERROR none
          (some ("Error submitting response: " ++ exc))
        { session := s2, notes := n1 ++ n2,
          result := { status := "error", message := exc } }
    | _ =>
        let action := if send then "sent" else "saved as draft"
        let (s2, n2) := stepEvent lb listeners now s1 WorkflowState.LISTENING none
          (some ("Response " ++ action ++ " successfully"))
        let s3 := { s2 with current_email_id := none, draft_response := none }
        { session := s3, notes := n1 ++ n2,
          result := { status := "success",
                      message := "Response " ++ action ++ " successfully" } }

/-- The body of `WorkflowController._process_command` acting on one session:
append the `PROCESSING_COMMAND` event, classify the lowercased command, and
dispatch first-match-wins; no rule matching yields the unknown-command error.
(The surrounding `try` cannot fire: every handler already catches its own
collaborator fault.) -/
def processCommandOnSession (lb : ListenerBehavior) (listeners : List Nat) (now : Nat)
    (collab : Collab) (s : WorkflowSession) (command : String) : HandlerOut :=
  let (s1, n1) := stepEvent lb listeners now s WorkflowState.PROCESSING_COMMAND
    (some (EventData.command command)) (some ("Processing command: " ++ command))
  let out :=
    match classifyCommand command with
    | CommandHandler.login => handleLogin lb listeners now collab.login_to_crm s1
    | CommandHandler.inbox => handleInbox lb listeners now collab.navigate_to_inbox s1
    | CommandHandler.readEmail => handleReadEmail lb listeners now collab.process_email s1
    | CommandHandler.generateResponse =>
        handleGenerateResponse lb listeners now collab.process_email s1
    | CommandHandler.submitResponse send =>
        handleSubmitResponse lb listeners now collab.submit_draft send s1
    | CommandHandler.unknown =>
        let (s2, n2) := stepEvent lb listeners now s1 WorkflowState.ERROR none
          (some ("Unknown command: " ++ command))
        { session := s2, notes := n2,
          result := { status := "error", message := "Unknown command" } }
  { session := out.session, notes := n1 ++ out.notes, result := out.result }

/-- The `WorkflowController` state: the session registry (an insertion-ordered
dict), the registered listener callbacks in registration order, and the
observable log of listener invocations (the model's view of their side
effects). -/
structure WorkflowController where
  sessions : List (String × WorkflowSession) := []
  event_listeners : List Nat := []
  log : List Notification := []
deriving DecidableEq, Repr

/-- `WorkflowController.create_session`: build a fresh session, append the
`LISTENING` event, register the session under the generated identifier `sid`
(`str(uuid.uuid4())` in the source), notify listeners with that event, and
return the identifier with the created status. -/
def create_session (lb : ListenerBehavior) (now : Nat) (c : WorkflowController)
    (sid : String) : WorkflowController × (String × String) :=
  let session0 := mkWorkflowSession now sid
  let (session, e) := session0.add_event now WorkflowState.LISTENING none
    (some ("Session created, listening for commands"))
  let sessions' := dictSet c.sessions sid session
  ({ c with sessions := sessions',
            log := c.log ++ notify_listeners lb c.event_listeners e },
   (sid, "created"))

/-- The result dict of `end_session`: `{"status": "error", "message": ...}` on
an unknown id, `{"status": "ended", "session_id": ...}` otherwise. -/
structure EndResult where
  status : String
  message : Option String := none
  session_id : Option String := none
deriving DecidableEq, Repr

/-- `WorkflowController.end_session`: unknown ids fail gracefully without any
mutation; otherwise the browser handle, when truthy, is asked to end (the
reply `browserEnd` is consumed by a `try/except` that only logs, so it cannot
influence anything), the final `IDLE` event is appended and notified, and the
session is removed from the registry. -/
def end_session (lb : ListenerBehavior) (browserEnd : CollabReply Unit) (now : Nat)
    (c : WorkflowController) (sid : String) : WorkflowController × EndResult :=
  match dictGet c.sessions sid with
  | none => (c, { status := "error", message := some ("Session not found") })
  | some session =>
      let _ := if pyTruthy session.browser_session_id then some browserEnd else none
      let (session', e) := session.add_event now WorkflowState.IDLE none
        (some ("Session ended"))
      let sessions1 := dictSet c.sessions sid session'
      let log1 := c.log ++ notify_listeners lb c.event_listeners e
      let sessions2 := dictRemove sessions1 sid
      ({ c with sessions := sessions2, log := log1 },
       { status := "ended", session_id := some sid })

/-- `WorkflowController._process_command` at the controller level: the source
passes the session object, whose in-place mutations are visible through the
registry; here the session is read from the registry and the mutated value is
written back to the same position.  (The fallback branch is unreachable from
the source's call sites, which always pass a registered session.) -/
def process_command (lb : ListenerBehavior) (collab : Collab) (now : Nat)
    (c : WorkflowController) (sid : String) (command : String) :
    WorkflowController × CmdResult :=
  match dictGet c.sessions sid with
  | none => (c, { status := "error", message := "Session not found" })
  | some s =>
      let out := processCommandOnSession lb c.event_listeners now collab s command
      ({ c with sessions := dictSet c.sessions sid out.session,
                log := c.log ++ out.notes },
       out.result)

/-- Python's stable descending insertion by `start_time`: an element is placed
before the first element with a strictly smaller key, so equal keys keep their
original relative order — the behaviour of `sorted(..., key=..., reverse=True)`. -/
def insertByStartDesc (x : WorkflowSession) : List WorkflowSession → List WorkflowSession
  | [] => [x]
  | y :: ys => if y.start_time > x.start_time then y :: insertByStartDesc x ys else x :: y :: ys

/-- Stable sort of sessions by `start_time`, most recent first, modelling
`sorted(active_sessions, key=lambda s: s.start_time, reverse=True)`. -/
def sortByStartDesc : List WorkflowSession → List WorkflowSession
  | [] => []
  | x :: xs => insertByStartDesc x (sortByStartDesc xs)

/-- `WorkflowController._get_active_session`: among registered sessions not in
`IDLE`, the head of the stable descending sort by `start_time` (or none). -/
def getActiveSession (c : WorkflowController) : Option WorkflowSession :=
  if c.sessions.isEmpty then none
  else
    let active := (c.sessions.map Prod.snd).filter
      (fun s => decide (s.current_state ≠ WorkflowState.IDLE))
    if active.isEmpty then none
    else (sortByStartDesc active).head?

/-- `WorkflowController.process_voice_command`: resolve the active session, or
create one (under the fresh identifier `freshSid`, standing for the
`uuid.uuid4()` the nested `create_session` would draw), then dispatch. -/
def process_voice_command (lb : ListenerBehavior) (collab : Collab) (now : Nat)
    (freshSid : String) (c : WorkflowController) (command : String) :
    WorkflowController × CmdResult :=
  match getActiveSession c with
  | some s => process_command lb collab now c s.session_id command
  | none =>
      let (c1, r) := create_session lb now c freshSid
      process_command lb collab now c1 r.1 command

/-- `WorkflowController.register_event_listener`: append to the listener list;
no duplicate detection. -/
def register_event_listener (c : WorkflowController) (l : Nat) : WorkflowController :=
  { c with event_listeners := c.event_listeners ++ [l] }

/-- The read-only projection `get_session` returns. -/
structure SessionSnapshot where
  session_id : String
  browser_session_id : Option String
  current_state : WorkflowState
  current_email_id : Option String
  has_draft : Bool
  start_time : Nat
  events : Nat
  last_event : Option WorkflowEvent
deriving DecidableEq, Repr

/-- `WorkflowController.get_session`: a snapshot of one session, or `None` for
an unknown id. -/
def get_session (c : WorkflowController) (sid : String) : Option SessionSnapshot :=
  (dictGet c.sessions sid).map fun s =>
    { session_id := s.session_id, browser_session_id := s.browser_session_id,
      current_state := s.current_state, current_email_id := s.current_email_id,
      has_draft := pyTruthy s.draft_response, start_time := s.start_time,
      events := s.events.length, last_event := s.events.getLast? }

/-- `WorkflowController.get_all_sessions`: one snapshot per registered id, in
registry (insertion) order. -/
def get_all_sessions (c : WorkflowController) : List (Option SessionSnapshot) :=
  c.sessions.map fun p => get_session c p.1

/-- The session well-formedness facts maintained at rest: the denormalized
`current_state` mirrors the last event, the history is nonempty (its
`getLast?` is `some`), and no registered session rests in `IDLE`. -/
def SessionOK (s : WorkflowSession) : Prop :=
  (s.events.getLast?).map WorkflowEvent.state = some s.current_state
  ∧ s.current_state ≠ WorkflowState.IDLE

/-- The registry invariant: every registered session is well formed. -/
def InvAll (c : WorkflowController) : Prop :=
  ∀ p ∈ c.sessions, SessionOK p.2

/-- The empty controller, as `WorkflowController()` constructs it. -/
def initialController : WorkflowController := {}

/-- One externally triggered controller operation, with `uuid.uuid4()`
freshness modelled as the hypothesis that the drawn identifier is unused. -/
inductive ControllerStep : WorkflowController → WorkflowController → Prop where
  | register (c : WorkflowController) (l : Nat) :
      ControllerStep c (register_event_listener c l)
  | create (c : WorkflowController) (lb : ListenerBehavior) (now : Nat) (sid : String)
      (h : dictGet c.sessions sid = none) :
      ControllerStep c (create_session lb now c sid).1
  | endSession (c : WorkflowController) (lb : ListenerBehavior) (br : CollabReply Unit)
      (now : Nat) (sid : String) :
      ControllerStep c (end_session lb br now c sid).1
  | processVoice (c : WorkflowController) (lb : ListenerBehavior) (collab : Collab)
      (now : Nat) (freshSid : String) (cmd : String)
      (h : dictGet c.sessions freshSid = none) :
      ControllerStep c (process_voice_command lb collab now freshSid c cmd).1
  | processCmd (c : WorkflowController) (lb : ListenerBehavior) (collab : Collab)
      (now : Nat) (sid : String) (cmd : String) :
      ControllerStep c (process_command lb collab now c sid cmd).1

/-- Controller states reachable from construction through any sequence of
operations, observed at rest. -/
inductive ReachableController : WorkflowController → Prop where
  | init : ReachableController initialController
  | step {c c' : WorkflowController} :
      ReachableController c → ControllerStep c c' → ReachableController c'

/-- A listener behaviour under which no callback raises. -/
def lbNone : ListenerBehavior := fun _ _ => false

/-- A listener behaviour under which every callback raises. -/
def lbAll : ListenerBehavior := fun _ _ => true

/-- Collaborator replies for a command that performs no collaborator call. -/
def collabUnused : Collab :=
  { login_to_crm := CollabReply.fault ("unused"),
    navigate_to_inbox := CollabReply.fault ("unused"),
    process_email := ProcessEmailReply.fault ("unused"),
    submit_draft := CollabReply.fault ("unused") }

/-- A sample email record as the email collaborator would return it. -/
def sampleEmail : EmailRecord := { email_id := "e9", subject := "Application status" }

/-- A session that has authenticated, focused an email and drafted a reply. -/
def reviewSession : WorkflowSession :=
  { session_id := "A", browser_session_id := some ("b1"), current_email_id := some ("e1"),
    current_state := WorkflowState.REVIEWING, draft_response := some ("Draft body"),
    start_time := classDefTime,
    events := [mkWorkflowEvent 0 WorkflowState.REVIEWING none none] }

/-- The first (and only) event `create_session` appends. -/
def listenEvent : WorkflowEvent :=
  { state := WorkflowState.LISTENING, timestamp := classDefTime,
    message := some ("Session created, listening for commands") }

/-- The session value `create_session` registers. -/
def createdSession (now : Nat) (sid : String) : WorkflowSession :=
  ((mkWorkflowSession now sid).add_event now WorkflowState.LISTENING none
    (some ("Session created, listening for commands"))).1

/-- The final event `end_session` appends before deleting the session. -/
def idleEvent : WorkflowEvent :=
  { state := WorkflowState.IDLE, timestamp := classDefTime,
    message := some ("Session ended") }

/-- The ERROR event a handler appends with the given message. -/
def errEvent (msg : String) : WorkflowEvent :=
  { state := WorkflowState.ERROR, timestamp := classDefTime, message := some msg }

/-- What a handler produces on its error paths: an error result with the given
message, the session resting in `ERROR` whose last event carries the failure
detail, and a notification of that event delivered to every registered
listener. -/
def ErrorOutcome (lb : ListenerBehavior) (listeners : List Nat) (out : HandlerOut)
    (resultMessage eventMessage : String) : Prop :=
  out.result.status = "error" ∧ out.result.message = resultMessage
  ∧ out.session.current_state = WorkflowState.ERROR
  ∧ out.session.events.getLast? = some (errEvent eventMessage)
  ∧ ∀ l ∈ listeners,
      Notification.mk l (errEvent eventMessage) (lb l (errEvent eventMessage)) ∈ out.notes

/-- The registry after creating session A at instant 1 and then session B at
instant 2 (so A strictly before B); both rest in `LISTENING`. -/
def registryAB : WorkflowController :=
  (create_session lbNone 2 ((create_session lbNone 1 initialController "A").1) "B").1

/-- A controller holding one authenticated session under id A. -/
def authedController : WorkflowController :=
  { sessions := [("A",
      { session_id := "A", browser_session_id := some ("b1"),
        current_state := WorkflowState.LISTENING, start_time := classDefTime,
        events := [mkWorkflowEvent 0 WorkflowState.LISTENING none none] })] }

/-- Collaborator replies for a read command whose email service succeeds. -/
def collabRead : Collab :=
  { collabUnused with
    process_email := (ProcessEmailReply.result sampleEmail ("Thanks for your interest.")) }

theorem getLast?_append_one {α : Type} (l : List α) (a : α) : (l ++ [a]).getLast? = some a := by
  induction l with
  | nil => rfl
  | cons b bs ih =>
      cases bs with
      | nil => rfl
      | cons c cs => simpa using ih

theorem stepEvent_session_ok (lb : ListenerBehavior) (L : List Nat) (now : Nat)
    (s : WorkflowSession) (st : WorkflowState) (d : Option EventData) (m : Option String)
    (h : st ≠ WorkflowState.IDLE) : SessionOK (stepEvent lb L now s st d m).1 := by
  simp [stepEvent, WorkflowSession.add_event, SessionOK, mkWorkflowEvent,
    getLast?_append_one, h]

theorem handleLogin_session_ok (lb : ListenerBehavior) (L : List Nat) (now : Nat)
    (reply : CollabReply String) (s : WorkflowSession) :
    SessionOK (handleLogin lb L now reply s).session := by
  cases reply <;>
    simp [handleLogin, stepEvent, WorkflowSession.add_event, SessionOK, mkWorkflowEvent,
      getLast?_append_one]

theorem handleInbox_session_ok (lb : ListenerBehavior) (L : List Nat) (now : Nat)
    (reply : CollabReply Unit) (s : WorkflowSession) :
    SessionOK (handleInbox lb L now reply s).session := by
  rcases h : pyTruthy s.browser_session_id <;> cases reply <;>
    simp [handleInbox, h, stepEvent, WorkflowSession.add_event, SessionOK, mkWorkflowEvent,
      getLast?_append_one]

theorem handleReadEmail_session_ok (lb : ListenerBehavior) (L : List Nat) (now : Nat)
    (reply : ProcessEmailReply) (s : WorkflowSession) :
    SessionOK (handleReadEmail lb L now reply s).session := by
  rcases h : pyTruthy s.browser_session_id <;> cases reply <;>
    simp [handleReadEmail, h, stepEvent, WorkflowSession.add_event, SessionOK, mkWorkflowEvent,
      getLast?_append_one]

theorem handleGenerateResponse_session_ok (lb : ListenerBehavior) (L : List Nat) (now : Nat)
    (reply : ProcessEmailReply) (s : WorkflowSession) :
    SessionOK (handleGenerateResponse lb L now reply s).session := by
  rcases h : pyTruthy s.current_email_id <;> cases reply <;>
    simp [handleGenerateResponse, h, stepEvent, WorkflowSession.add_event, SessionOK,
      mkWorkflowEvent, getLast?_append_one]

theorem handleSubmitResponse_session_ok (lb : ListenerBehavior) (L : List Nat) (now : Nat)
    (reply : CollabReply Unit) (send : Bool) (s : WorkflowSession) :
    SessionOK (handleSubmitResponse lb L now reply send s).session := by
  rcases h : pyTruthy s.current_email_id <;> rcases h2 : pyTruthy s.draft_response <;>
    cases reply <;>
    simp [handleSubmitResponse, h, h2, stepEvent, WorkflowSession.add_event, SessionOK,
      mkWorkflowEvent, getLast?_append_one]

theorem processCommandOnSession_session_ok (lb : ListenerBehavior) (L : List Nat) (now : Nat)
    (collab : Collab) (s : WorkflowSession) (cmd : String) :
    SessionOK (processCommandOnSession lb L now collab s cmd).session := by
  unfold processCommandOnSession
  cases h : classifyCommand cmd <;>
    simp only [stepEvent, WorkflowSession.add_event, h]
  case login => exact handleLogin_session_ok ..
  case inbox => exact handleInbox_session_ok ..
  case readEmail => exact handleReadEmail_session_ok ..
  case generateResponse => exact handleGenerateResponse_session_ok ..
  case submitResponse => exact handleSubmitResponse_session_ok ..
  case unknown =>
    simp [SessionOK, mkWorkflowEvent, getLast?_append_one]

theorem mem_dictSet {α : Type} {d : List (String × α)} {k : String} {v : α} {p : String × α}
    (h : p ∈ dictSet d k v) : p ∈ d ∨ p = (k, v) := by
  induction d with
  | nil => simpa [dictSet] using h
  | cons q rest ih =>
      rcases q with ⟨k', v'⟩
      by_cases hk : k' = k
      · simp only [dictSet, if_pos hk] at h
        rcases List.mem_cons.mp h with h | h
        · right; exact h
        · left; exact List.mem_cons_of_mem _ h
      · simp only [dictSet, if_neg hk] at h
        rcases List.mem_cons.mp h with h | h
        · left; exact h ▸ List.mem_cons_self _ _
        · rcases ih h with h | h
          · left; exact List.mem_cons_of_mem _ h
          · right; exact h

theorem mem_dictRemove {α : Type} {d : List (String × α)} {k : String} {p : String × α}
    (h : p ∈ dictRemove d k) : p ∈ d := by
  induction d with
  | nil => simp [dictRemove] at h
  | cons q rest ih =>
      rcases q with ⟨k', v'⟩
      by_cases hk : k' = k
      · simp only [dictRemove, if_pos hk] at h
        exact List.mem_cons_of_mem _ h
      · simp only [dictRemove, if_neg hk] at h
        rcases List.mem_cons.mp h with h | h
        · exact h ▸ List.mem_cons_self _ _
        · exact List.mem_cons_of_mem _ (ih h)

theorem dictRemove_dictSet {α : Type} (d : List (String × α)) (k : String) (v : α) :
    dictRemove (dictSet d k v) k = dictRemove d k := by
  induction d with
  | nil => simp [dictSet, dictRemove]
  | cons q rest ih =>
      rcases q with ⟨k', v'⟩
      by_cases hk : k' = k
      · simp [dictSet, dictRemove, hk]
      · simp [dictSet, dictRemove, hk, ih]

theorem dictGet_dictSet_self {α : Type} (d : List (String × α)) (k : String) (v : α) :
    dictGet (dictSet d k v) k = some v := by
  induction d with
  | nil => simp [dictSet, dictGet]
  | cons q rest ih =>
      rcases q with ⟨k', v'⟩
      by_cases hk : k' = k
      · simp [dictSet, dictGet, hk]
      · simp [dictSet, dictGet, hk, ih]

theorem dictSet_eq_append {α : Type} {d : List (String × α)} {k : String}
    (h : dictGet d k = none) (v : α) : dictSet d k v = d ++ [(k, v)] := by
  induction d with
  | nil => simp [dictSet]
  | cons q rest ih =>
      rcases q with ⟨k', v'⟩
      by_cases hk : k' = k
      · simp [dictGet, hk] at h
      · simp only [dictGet, if_neg hk] at h
        simp [dictSet, hk, ih h]

theorem dictRemove_of_none {α : Type} {d : List (String × α)} {k : String}
    (h : dictGet d k = none) : dictRemove d k = d := by
  induction d with
  | nil => rfl
  | cons q rest ih =>
      rcases q with ⟨k', v'⟩
      by_cases hk : k' = k
      · simp [dictGet, hk] at h
      · simp only [dictGet, if_neg hk] at h
        simp [dictRemove, hk, ih h]

theorem dictRemove_append_last {α : Type} {d : List (String × α)} {k : String}
    (h : dictGet d k = none) (v : α) : dictRemove (d ++ [(k, v)]) k = d := by
  induction d with
  | nil => simp [dictRemove]
  | cons q rest ih =>
      rcases q with ⟨k', v'⟩
      by_cases hk : k' = k
      · simp [dictGet, hk] at h
      · simp only [dictGet, if_neg hk] at h
        simp [dictRemove, hk, ih h]

theorem dictGet_append_last {α : Type} {d : List (String × α)} {k : String}
    (h : dictGet d k = none) (v : α) : dictGet (d ++ [(k, v)]) k = some v := by
  induction d with
  | nil => simp [dictGet]
  | cons q rest ih =>
      rcases q with ⟨k', v'⟩
      by_cases hk : k' = k
      · simp [dictGet, hk] at h
      · simp only [dictGet, if_neg hk] at h
        simp [dictGet, hk, ih h]

theorem keys_not_mem {α : Type} {d : List (String × α)} {k : String}
    (h : dictGet d k = none) : k ∉ d.map Prod.fst := by
  induction d with
  | nil => simp
  | cons q rest ih =>
      rcases q with ⟨k', v'⟩
      by_cases hk : k' = k
      · simp [dictGet, hk] at h
      · simp only [dictGet, if_neg hk] at h
        simp only [List.map_cons, List.mem_cons, not_or]
        exact ⟨fun e => hk e.symm, ih h⟩

theorem create_session_preserves (lb : ListenerBehavior) (now : Nat)
    (c : WorkflowController) (sid : String) (hc : InvAll c) :
    InvAll (create_session lb now c sid).1 := by
  intro p hp
  simp only [create_session, WorkflowSession.add_event, mkWorkflowSession] at hp
  rcases mem_dictSet hp with h | h
  · exact hc p h
  · subst h
    simp [SessionOK, mkWorkflowEvent, getLast?_append_one]

theorem end_session_preserves (lb : ListenerBehavior) (br : CollabReply Unit) (now : Nat)
    (c : WorkflowController) (sid : String) (hc : InvAll c) :
    InvAll (end_session lb br now c sid).1 := by
  intro p hp
  unfold end_session at hp
  cases hg : dictGet c.sessions sid with
  | none => rw [hg] at hp; exact hc p hp
  | some session =>
      rw [hg] at hp
      simp only [WorkflowSession.add_event, dictRemove_dictSet] at hp
      exact hc p (mem_dictRemove hp)

theorem process_command_preserves (lb : ListenerBehavior) (collab : Collab) (now : Nat)
    (c : WorkflowController) (sid : String) (cmd : String) (hc : InvAll c) :
    InvAll (process_command lb collab now c sid cmd).1 := by
  intro p hp
  unfold process_command at hp
  cases hg : dictGet c.sessions sid with
  | none => rw [hg] at hp; exact hc p hp
  | some s =>
      rw [hg] at hp
      simp only [] at hp
      rcases mem_dictSet hp with h | h
      · exact hc p h
      · subst h
        exact processCommandOnSession_session_ok ..

theorem process_voice_command_preserves (lb : ListenerBehavior) (collab : Collab) (now : Nat)
    (freshSid : String) (c : WorkflowController) (cmd : String) (hc : InvAll c) :
    InvAll (process_voice_command lb collab now freshSid c cmd).1 := by
  unfold process_voice_command
  cases ha : getActiveSession c with
  | some s => exact process_command_preserves lb collab now c s.session_id cmd hc
  | none =>
      exact process_command_preserves lb collab now _ _ cmd
        (create_session_preserves lb now c freshSid hc)

theorem reachable_inv {c : WorkflowController} (h : ReachableController c) : InvAll c := by
  induction h with
  | init => intro p hp; simp [initialController] at hp
  | step _ s ih =>
      cases s with
      | register l => intro p hp; exact ih p hp
      | create lb now sid hfresh => exact create_session_preserves lb now _ sid ih
      | endSession lb br now sid => exact end_session_preserves lb br now _ sid ih
      | processVoice lb collab now freshSid cmd hfresh =>
          exact process_voice_command_preserves lb collab now freshSid _ cmd ih
      | processCmd lb collab now sid cmd =>
          exact process_command_preserves lb collab now _ sid cmd ih

theorem dictGet_mem {α : Type} {d : List (String × α)} {k : String} {v : α}
    (h : dictGet d k = some v) : (k, v) ∈ d := by
  induction d with
  | nil => simp [dictGet] at h
  | cons q rest ih =>
      rcases q with ⟨k', v'⟩
      by_cases hk : k' = k
      · subst hk
        simp [dictGet] at h
        subst h
        exact List.mem_cons_self _ _
      · simp only [dictGet, if_neg hk] at h
        exact List.mem_cons_of_mem _ (ih h)

theorem notify_listeners_map (lb : ListenerBehavior) (L : List Nat) (e : WorkflowEvent) :
    (notify_listeners lb L e).map Notification.listener = L := by
  induction L with
  | nil => rfl
  | cons a as ih => simp [notify_listeners, ih]

theorem mem_notify (lb : ListenerBehavior) {L : List Nat} {l : Nat} (e : WorkflowEvent)
    (h : l ∈ L) : Notification.mk l e (lb l e) ∈ notify_listeners lb L e := by
  induction L with
  | nil => simp at h
  | cons a as ih =>
      rcases List.mem_cons.mp h with h | h
      · subst h; exact List.mem_cons_self _ _
      · exact List.mem_cons_of_mem _ (ih h)

theorem handleLogin_lb_indep (lb lb' : ListenerBehavior) (L : List Nat) (now : Nat)
    (reply : CollabReply String) (s : WorkflowSession) :
    (handleLogin lb L now reply s).session = (handleLogin lb' L now reply s).session
    ∧ (handleLogin lb L now reply s).result = (handleLogin lb' L now reply s).result := by
  cases reply <;> simp [handleLogin, stepEvent, WorkflowSession.add_event]

theorem handleInbox_lb_indep (lb lb' : ListenerBehavior) (L : List Nat) (now : Nat)
    (reply : CollabReply Unit) (s : WorkflowSession) :
    (handleInbox lb L now reply s).session = (handleInbox lb' L now reply s).session
    ∧ (handleInbox lb L now reply s).result = (handleInbox lb' L now reply s).result := by
  rcases h : pyTruthy s.browser_session_id <;> cases reply <;>
    simp [handleInbox, h, stepEvent, WorkflowSession.add_event]

theorem handleReadEmail_lb_indep (lb lb' : ListenerBehavior) (L : List Nat) (now : Nat)
    (reply : ProcessEmailReply) (s : WorkflowSession) :
    (handleReadEmail lb L now reply s).session = (handleReadEmail lb' L now reply s).session
    ∧ (handleReadEmail lb L now reply s).result = (handleReadEmail lb' L now reply s).result := by
  rcases h : pyTruthy s.browser_session_id <;> cases reply <;>
    simp [handleReadEmail, h, stepEvent, WorkflowSession.add_event]

theorem handleGenerateResponse_lb_indep (lb lb' : ListenerBehavior) (L : List Nat) (now : Nat)
    (reply : ProcessEmailReply) (s : WorkflowSession) :
    (handleGenerateResponse lb L now reply s).session
      = (handleGenerateResponse lb' L now reply s).session
    ∧ (handleGenerateResponse lb L now reply s).result
      = (handleGenerateResponse lb' L now reply s).result := by
  rcases h : pyTruthy s.current_email_id <;> cases reply <;>
    simp [handleGenerateResponse, h, stepEvent, WorkflowSession.add_event]

theorem handleSubmitResponse_lb_indep (lb lb' : ListenerBehavior) (L : List Nat) (now : Nat)
    (reply : CollabReply Unit) (send : Bool) (s : WorkflowSession) :
    (handleSubmitResponse lb L now reply send s).session
      = (handleSubmitResponse lb' L now reply send s).session
    ∧ (handleSubmitResponse lb L now reply send s).result
      = (handleSubmitResponse lb' L now reply send s).result := by
  rcases h : pyTruthy s.current_email_id <;> rcases h2 : pyTruthy s.draft_response <;>
    cases reply <;>
    simp [handleSubmitResponse, h, h2, stepEvent, WorkflowSession.add_event]

theorem processCommandOnSession_lb_indep (lb lb' : ListenerBehavior) (L : List Nat)
    (now : Nat) (collab : Collab) (s : WorkflowSession) (cmd : String) :
    (processCommandOnSession lb L now collab s cmd).session
      = (processCommandOnSession lb' L now collab s cmd).session
    ∧ (processCommandOnSession lb L now collab s cmd).result
      = (processCommandOnSession lb' L now collab s cmd).result := by
  unfold processCommandOnSession
  cases h : classifyCommand cmd <;> simp only [stepEvent, WorkflowSession.add_event, h]
  case login => exact handleLogin_lb_indep ..
  case inbox => exact handleInbox_lb_indep ..
  case readEmail => exact handleReadEmail_lb_indep ..
  case generateResponse => exact handleGenerateResponse_lb_indep ..
  case submitResponse => exact handleSubmitResponse_lb_indep ..
  case unknown => simp

theorem process_command_lb_indep (lb lb' : ListenerBehavior) (collab : Collab) (now : Nat)
    (c : WorkflowController) (sid cmd : String) :
    (process_command lb collab now c sid cmd).2 = (process_command lb' collab now c sid cmd).2
    ∧ ((process_command lb collab now c sid cmd).1).sessions
      = ((process_command lb' collab now c sid cmd).1).sessions := by
  unfold process_command
  cases h : dictGet c.sessions sid with
  | none => exact ⟨rfl, rfl⟩
  | some s =>
      dsimp only
      obtain ⟨hs, hr⟩ := processCommandOnSession_lb_indep lb lb' c.event_listeners now collab s cmd
      exact ⟨hr, by rw [hs]⟩

theorem end_session_found (lb : ListenerBehavior) (br : CollabReply Unit) (now : Nat)
    {c : WorkflowController} {sid : String} {s : WorkflowSession}
    (h : dictGet c.sessions sid = some s) :
    end_session lb br now c sid
      = ({ c with sessions := dictRemove c.sessions sid,
                  log := c.log ++ notify_listeners lb c.event_listeners
                    ((s.add_event now WorkflowState.IDLE none (some ("Session ended"))).2) },
         { status := "ended", session_id := some sid }) := by
  unfold end_session
  rw [h]
  simp only [WorkflowSession.add_event, dictRemove_dictSet]

/-- C9.  The claim reads: every event's `timestamp` is its creation time,
every session's `start_time` is its creation time, so creations at different
times carry different stamps.  The source contradicts it: the `datetime.now()`
field defaults were evaluated once, at class definition, so an event created
at instant 1 and an event created at instant 2 carry the same timestamp (the
class-definition instant), and likewise for sessions; `add_event` inherits the
shared default as well. -/
theorem timestamp_shares_class_default :
    (mkWorkflowEvent 1 WorkflowState.LISTENING none none).timestamp
      = (mkWorkflowEvent 2 WorkflowState.LISTENING none none).timestamp
    ∧ (mkWorkflowEvent 1 WorkflowState.LISTENING none none).timestamp = classDefTime
    ∧ (mkWorkflowSession 1 "A").start_time = (mkWorkflowSession 2 "B").start_time
    ∧ (mkWorkflowSession 1 "A").start_time = classDefTime
    ∧ ((mkWorkflowSession 1 "A").add_event 5 WorkflowState.LISTENING none none).2.timestamp
      = classDefTime :=
  ⟨rfl, rfl, rfl, rfl, rfl⟩

/-- C4.  The claim reads: with A created before B and both non-`IDLE`,
`process_voice_command` routes to B, the session with the most recent
`start_time`.  The source contradicts it: both sessions carry the shared
class-definition-time `start_time` (see `timestamp_shares_class_default`), the
stable descending sort leaves the tie in insertion order, so the head is A —
an unknown command grows A's history from 1 to 3 events while B keeps 1. -/
theorem active_session_routes_to_first_created :
    ((dictGet registryAB.sessions "A").map WorkflowSession.current_state
      = some WorkflowState.LISTENING)
    ∧ ((dictGet registryAB.sessions "B").map WorkflowSession.current_state
      = some WorkflowState.LISTENING)
    ∧ ((dictGet registryAB.sessions "A").map WorkflowSession.start_time
      = (dictGet registryAB.sessions "B").map WorkflowSession.start_time)
    ∧ ((getActiveSession registryAB).map WorkflowSession.session_id = some "A")
    ∧ ((dictGet ((process_voice_command lbNone collabUnused 3 "F" registryAB "hello").1).sessions
        "A").map (fun s => s.events.length) = some 3)
    ∧ ((dictGet ((process_voice_command lbNone collabUnused 3 "F" registryAB "hello").1).sessions
        "B").map (fun s => s.events.length) = some 1) := by
  refine ⟨rfl, rfl, rfl, rfl, ?_, ?_⟩ <;> decide

/-- C6.  `end_session` on an id absent from the registry returns the error
result with the descriptive message and leaves the whole controller — in
particular the session registry, in size and contents — unchanged. -/
theorem end_session_unknown_id (lb : ListenerBehavior) (br : CollabReply Unit) (now : Nat)
    (c : WorkflowController) (sid : String) (h : dictGet c.sessions sid = none) :
    end_session lb br now c sid
      = (c, { status := "error", message := some ("Session not found") }) := by
  unfold end_session
  rw [h]

/-- Witness for C6 at a concrete unknown id. -/
theorem end_session_unknown_id_witness :
    end_session lbNone (CollabReply.success ()) 7 registryAB "missing"
      = (registryAB, { status := "error", message := some ("Session not found") }) :=
  end_session_unknown_id lbNone (CollabReply.success ()) 7 registryAB "missing" (by decide)

/-- C5.  `create_session` under a fresh identifier: returns the identifier
with the created status, registers (at the end of the registry) a session
whose state is `LISTENING` and whose history is exactly the one `LISTENING`
event, and appends to the log the notification of that event to every
registered listener. -/
theorem create_session_spec (lb : ListenerBehavior) (now : Nat) (c : WorkflowController)
    (sid : String) (hfresh : dictGet c.sessions sid = none) :
    (create_session lb now c sid).2 = (sid, "created")
    ∧ dictGet ((create_session lb now c sid).1).sessions sid = some (createdSession now sid)
    ∧ (createdSession now sid).current_state = WorkflowState.LISTENING
    ∧ (createdSession now sid).events = [listenEvent]
    ∧ listenEvent.state = WorkflowState.LISTENING
    ∧ ((create_session lb now c sid).1).sessions = c.sessions ++ [(sid, createdSession now sid)]
    ∧ ((create_session lb now c sid).1).log
      = c.log ++ notify_listeners lb c.event_listeners listenEvent := by
  refine ⟨rfl, ?_, rfl, rfl, rfl, ?_, rfl⟩
  · exact dictGet_dictSet_self ..
  · exact dictSet_eq_append hfresh _

/-- Witness for C5: a fresh creation on the empty controller. -/
theorem create_session_spec_witness :
    (create_session lbNone 1 initialController "A").2 = ("A", "created")
    ∧ dictGet ((create_session lbNone 1 initialController "A").1).sessions "A"
      = some (createdSession 1 "A")
    ∧ (createdSession 1 "A").current_state = WorkflowState.LISTENING
    ∧ (createdSession 1 "A").events = [listenEvent]
    ∧ listenEvent.state = WorkflowState.LISTENING
    ∧ ((create_session lbNone 1 initialController "A").1).sessions
      = initialController.sessions ++ [("A", createdSession 1 "A")]
    ∧ ((create_session lbNone 1 initialController "A").1).log
      = initialController.log ++ notify_listeners lbNone initialController.event_listeners listenEvent :=
  create_session_spec lbNone 1 initialController "A" (by decide)

/-- C7.  Creating a session under a fresh id and immediately ending it: the
registry returns to its previous value (so the id yields no entry in
`get_all_sessions`, whose rows are exactly the registry keys), the id resolves
to nothing, and before the removal an `IDLE` event was appended and its
notification to every registered listener was delivered (it survives in the
log even though the session itself is deleted). -/
theorem create_then_end_round_trip (lb : ListenerBehavior) (br : CollabReply Unit)
    (now now2 : Nat) (c : WorkflowController) (sid : String)
    (hfresh : dictGet c.sessions sid = none) :
    ((end_session lb br now2 ((create_session lb now c sid).1) sid).1).sessions = c.sessions
    ∧ dictGet ((end_session lb br now2 ((create_session lb now c sid).1) sid).1).sessions sid
      = none
    ∧ get_session ((end_session lb br now2 ((create_session lb now c sid).1) sid).1) sid = none
    ∧ sid ∉ (((end_session lb br now2 ((create_session lb now c sid).1) sid).1).sessions.map
        Prod.fst)
    ∧ (end_session lb br now2 ((create_session lb now c sid).1) sid).2
      = { status := "ended", session_id := some sid }
    ∧ idleEvent.state = WorkflowState.IDLE
    ∧ ((end_session lb br now2 ((create_session lb now c sid).1) sid).1).log
      = ((create_session lb now c sid).1).log
        ++ notify_listeners lb c.event_listeners idleEvent := by
  have h1 : dictGet ((create_session lb now c sid).1).sessions sid
      = some (createdSession now sid) := dictGet_dictSet_self ..
  rw [end_session_found lb br now2 h1]
  have hsess : dictRemove ((create_session lb now c sid).1).sessions sid = c.sessions := by
    show dictRemove (dictSet c.sessions sid (createdSession now sid)) sid = c.sessions
    rw [dictRemove_dictSet, dictRemove_of_none hfresh]
  refine ⟨hsess, ?_, ?_, ?_, rfl, rfl, rfl⟩
  · rw [hsess]; exact hfresh
  · show (dictGet (dictRemove ((create_session lb now c sid).1).sessions sid) sid).map _ = none
    rw [hsess, hfresh]; rfl
  · rw [hsess]; exact keys_not_mem hfresh

/-- Witness for C7: round trip of a fresh id on the empty controller. -/
theorem create_then_end_round_trip_witness :
    ((end_session lbNone (CollabReply.success ()) 2
        ((create_session lbNone 1 initialController "A").1) "A").1).sessions
      = initialController.sessions
    ∧ dictGet ((end_session lbNone (CollabReply.success ()) 2
        ((create_session lbNone 1 initialController "A").1) "A").1).sessions "A" = none
    ∧ get_session ((end_session lbNone (CollabReply.success ()) 2
        ((create_session lbNone 1 initialController "A").1) "A").1) "A" = none
    ∧ "A" ∉ (((end_session lbNone (CollabReply.success ()) 2
        ((create_session lbNone 1 initialController "A").1) "A").1).sessions.map Prod.fst)
    ∧ (end_session lbNone (CollabReply.success ()) 2
        ((create_session lbNone 1 initialController "A").1) "A").2
      = { status := "ended", session_id := some ("A") }
    ∧ idleEvent.state = WorkflowState.IDLE
    ∧ ((end_session lbNone (CollabReply.success ()) 2
        ((create_session lbNone 1 initialController "A").1) "A").1).log
      = ((create_session lbNone 1 initialController "A").1).log
        ++ notify_listeners lbNone initialController.event_listeners idleEvent :=
  create_then_end_round_trip lbNone (CollabReply.success ()) 1 2 initialController "A" (by decide)

/-- C1.  In every controller state reachable through the operations (session
creation, session end, voice-command processing and the handlers it
dispatches to), every session resting in the registry has a nonempty event
history whose last element's state equals the session's `current_state`. -/
theorem session_state_matches_last_event {c : WorkflowController}
    (h : ReachableController c) (sid : String) (s : WorkflowSession)
    (hs : dictGet c.sessions sid = some s) :
    s.events ≠ [] ∧ (s.events.getLast?).map WorkflowEvent.state = some s.current_state := by
  have hok := reachable_inv h (sid, s) (dictGet_mem hs)
  refine ⟨?_, hok.1⟩
  intro he
  have := hok.1
  rw [he] at this
  simp at this

/-- Witness for C1: the invariant read back on a concrete reachable state. -/
theorem session_state_matches_last_event_witness :
    (createdSession 1 "A").events ≠ []
    ∧ ((createdSession 1 "A").events.getLast?).map WorkflowEvent.state
      = some (createdSession 1 "A").current_state :=
  session_state_matches_last_event
    (ReachableController.step ReachableController.init
      (ControllerStep.create initialController lbNone 1 "A" rfl))
    "A" (createdSession 1 "A") rfl

/-- C10.  In every reachable controller state at rest, no registered session
is in `IDLE`: lookups and snapshots never show `IDLE`, and the non-`IDLE`
filter inside `_get_active_session` keeps every registered session. -/
theorem no_idle_session_at_rest {c : WorkflowController} (h : ReachableController c) :
    (∀ sid s, dictGet c.sessions sid = some s → s.current_state ≠ WorkflowState.IDLE)
    ∧ ((c.sessions.map Prod.snd).filter
        (fun s => decide (s.current_state ≠ WorkflowState.IDLE)) = c.sessions.map Prod.snd)
    ∧ (∀ sid snap, get_session c sid = some snap → snap.current_state ≠ WorkflowState.IDLE)
    ∧ (∀ snapOpt ∈ get_all_sessions c, ∀ snap, snapOpt = some snap →
        snap.current_state ≠ WorkflowState.IDLE) := by
  have hinv := reachable_inv h
  have hbase : ∀ sid s, dictGet c.sessions sid = some s →
      s.current_state ≠ WorkflowState.IDLE :=
    fun sid s hs => (hinv (sid, s) (dictGet_mem hs)).2
  have hsnap : ∀ sid snap, get_session c sid = some snap →
      snap.current_state ≠ WorkflowState.IDLE := by
    intro sid snap hs
    unfold get_session at hs
    rcases Option.map_eq_some'.mp hs with ⟨s, hget, hproj⟩
    have := hbase sid s hget
    rw [← hproj]
    exact this
  refine ⟨hbase, ?_, hsnap, ?_⟩
  · rw [List.filter_eq_self]
    intro s hs
    rcases List.mem_map.mp hs with ⟨p, hp, hps⟩
    have := (hinv p hp).2
    rw [hps] at this
    simpa using this
  · intro snapOpt hmem snap heq
    rcases List.mem_map.mp hmem with ⟨p, _, hps⟩
    exact hsnap p.1 snap (hps.trans heq)

/-- Witness for C10: the non-IDLE facts on a concrete reachable state. -/
theorem no_idle_session_at_rest_witness :
    (∀ sid s, dictGet ((create_session lbNone 1 initialController "A").1).sessions sid = some s →
        s.current_state ≠ WorkflowState.IDLE)
    ∧ ((((create_session lbNone 1 initialController "A").1).sessions.map Prod.snd).filter
        (fun s => decide (s.current_state ≠ WorkflowState.IDLE))
      = ((create_session lbNone 1 initialController "A").1).sessions.map Prod.snd)
    ∧ (∀ sid snap, get_session ((create_session lbNone 1 initialController "A").1) sid
        = some snap → snap.current_state ≠ WorkflowState.IDLE)
    ∧ (∀ snapOpt ∈ get_all_sessions ((create_session lbNone 1 initialController "A").1),
        ∀ snap, snapOpt = some snap → snap.current_state ≠ WorkflowState.IDLE) :=
  no_idle_session_at_rest
    (ReachableController.step ReachableController.init
      (ControllerStep.create initialController lbNone 1 "A" rfl))

/-- C2.  Command classification is exactly top-to-bottom first-match-wins
evaluation of the spec's ordered case-insensitive substring rule list, and in
particular "read my email and send it" is classified by rule 3 (read-email),
not rule 5 (submit) — dispatching it on an authenticated session runs the
read-email handler. -/
theorem command_dispatch_first_match :
    (∀ cmd, classifyCommand cmd = firstMatch specDispatchRules (lowerStr cmd))
    ∧ classifyCommand "read my email and send it" = CommandHandler.readEmail
    ∧ classifyCommand "read my email and send it" ≠ CommandHandler.submitResponse true
    ∧ (process_command lbNone collabRead 0 authedController "A" "read my email and send it").2
      = { status := "success", message := "Email read successfully", email := some sampleEmail } :=
  ⟨fun _ => rfl, by decide, by decide, by rfl⟩

/-- Counterexample to C3 as stated: `email_service.submit_draft` reports
failure in its result (without raising), yet the submit handler returns a
success result, appends a `LISTENING` event (never an `ERROR` one) and leaves
the session resting in `LISTENING`. -/
theorem submit_reported_failure_counterexample :
    (handleSubmitResponse lbNone [] 0 (CollabReply.failure (some "SMTP rejected")) true
      reviewSession).result.status = "success"
    ∧ (handleSubmitResponse lbNone [] 0 (CollabReply.failure (some "SMTP rejected")) true
      reviewSession).result.message = "Response sent successfully"
    ∧ (handleSubmitResponse lbNone [] 0 (CollabReply.failure (some "SMTP rejected")) true
      reviewSession).session.events.map WorkflowEvent.state
      = [WorkflowState.REVIEWING, WorkflowState.SUBMITTING, WorkflowState.LISTENING]
    ∧ (handleSubmitResponse lbNone [] 0 (CollabReply.failure (some "SMTP rejected")) true
      reviewSession).session.current_state = WorkflowState.LISTENING := by
  refine ⟨rfl, rfl, ?_, rfl⟩
  decide

theorem stepError_outcome (lb : ListenerBehavior) (L : List Nat) (now : Nat)
    (s1 : WorkflowSession) (n1 : List Notification) (resMsg evMsg : String) :
    ErrorOutcome lb L
      { session := (stepEvent lb L now s1 WorkflowState.ERROR none (some evMsg)).1,
        notes := n1 ++ (stepEvent lb L now s1 WorkflowState.ERROR none (some evMsg)).2,
        result := { status := "error", message := resMsg } }
      resMsg evMsg := by
  refine ⟨rfl, rfl, rfl, ?_, ?_⟩
  · exact getLast?_append_one s1.events (errEvent evMsg)
  · intro l hl
    exact List.mem_append_right _ (mem_notify lb (errEvent evMsg) hl)

/-- C3 amended.  The login and inbox handlers convert both a
collaborator-reported failure and a raised fault into an `ERROR` event
carrying the collaborator's detail, a notification to every listener, and an
error result; the read, generate and submit handlers convert raised faults
the same way; but the submit handler never inspects `submit_draft`'s reported
status, so on a reported (non-raised) failure it still returns a success
result. -/
theorem handlers_error_paths_amended (lb : ListenerBehavior) (L : List Nat) (now : Nat)
    (s : WorkflowSession) :
    (∀ err, ErrorOutcome lb L (handleLogin lb L now (CollabReply.failure err) s)
      ("Authentication failed") ("Authentication failed: " ++ pyOptStr err))
    ∧ (∀ exc, ErrorOutcome lb L (handleLogin lb L now (CollabReply.fault exc) s)
      exc ("Error during authentication: " ++ exc))
    ∧ (pyTruthy s.browser_session_id = true →
        ∀ err, ErrorOutcome lb L (handleInbox lb L now (CollabReply.failure err) s)
          ("Navigation failed") ("Navigation failed: " ++ pyOptStr err))
    ∧ (pyTruthy s.browser_session_id = true →
        ∀ exc, ErrorOutcome lb L (handleInbox lb L now (CollabReply.fault exc) s)
          exc ("Error during navigation: " ++ exc))
    ∧ (pyTruthy s.browser_session_id = true →
        ∀ exc, ErrorOutcome lb L (handleReadEmail lb L now (ProcessEmailReply.fault exc) s)
          exc ("Error reading email: " ++ exc))
    ∧ (pyTruthy s.current_email_id = true →
        ∀ exc, ErrorOutcome lb L (handleGenerateResponse lb L now (ProcessEmailReply.fault exc) s)
          exc ("Error generating response: " ++ exc))
    ∧ (pyTruthy s.current_email_id = true → pyTruthy s.draft_response = true →
        ∀ exc send, ErrorOutcome lb L
          (handleSubmitResponse lb L now (CollabReply.fault exc) send s)
          exc ("Error submitting response: " ++ exc))
    ∧ (pyTruthy s.current_email_id = true → pyTruthy s.draft_response = true →
        ∀ err send,
          (handleSubmitResponse lb L now (CollabReply.failure err) send s).result.status
            = "success") := by
  refine ⟨?_, ?_, ?_, ?_, ?_, ?_, ?_, ?_⟩
  · intro err
    unfold handleLogin
    exact stepError_outcome lb L now
      (stepEvent lb L now s WorkflowState.AUTHENTICATING none
        (some ("Authenticating to Slate CRM"))).1
      (stepEvent lb L now s WorkflowState.AUTHENTICATING none
        (some ("Authenticating to Slate CRM"))).2
      ("Authentication failed") ("Authentication failed: " ++ pyOptStr err)
  · intro exc
    unfold handleLogin
    exact stepError_outcome lb L now
      (stepEvent lb L now s WorkflowState.AUTHENTICATING none
        (some ("Authenticating to Slate CRM"))).1
      (stepEvent lb L now s WorkflowState.AUTHENTICATING none
        (some ("Authenticating to Slate CRM"))).2
      exc ("Error during authentication: " ++ exc)
  · intro hb err
    unfold handleInbox
    rw [hb]
    exact stepError_outcome lb L now
      (stepEvent lb L now s WorkflowState.NAVIGATING none (some ("Navigating to inbox"))).1
      (stepEvent lb L now s WorkflowState.NAVIGATING none (some ("Navigating to inbox"))).2
      ("Navigation failed") ("Navigation failed: " ++ pyOptStr err)
  · intro hb exc
    unfold handleInbox
    rw [hb]
    exact stepError_outcome lb L now
      (stepEvent lb L now s WorkflowState.NAVIGATING none (some ("Navigating to inbox"))).1
      (stepEvent lb L now s WorkflowState.NAVIGATING none (some ("Navigating to inbox"))).2
      exc ("Error during navigation: " ++ exc)
  · intro hb exc
    unfold handleReadEmail
    rw [hb]
    exact stepError_outcome lb L now
      (stepEvent lb L now s WorkflowState.READING_EMAIL none (some ("Reading email"))).1
      (stepEvent lb L now s WorkflowState.READING_EMAIL none (some ("Reading email"))).2
      exc ("Error reading email: " ++ exc)
  · intro he exc
    unfold handleGenerateResponse
    rw [he]
    exact stepError_outcome lb L now
      (stepEvent lb L now s WorkflowState.GENERATING_RESPONSE none
        (some ("Generating email response"))).1
      (stepEvent lb L now s WorkflowState.GENERATING_RESPONSE none
        (some ("Generating email response"))).2
      exc ("Error generating response: " ++ exc)
  · intro he hd exc send
    unfold handleSubmitResponse
    rw [he, hd]
    exact stepError_outcome lb L now
      (stepEvent lb L now s WorkflowState.SUBMITTING none
        (some ("Submitting response as " ++ (if send then "email" else "draft")))).1
      (stepEvent lb L now s WorkflowState.SUBMITTING none
        (some ("Submitting response as " ++ (if send then "email" else "draft")))).2
      exc ("Error submitting response: " ++ exc)
  · intro he hd err send
    unfold handleSubmitResponse
    rw [he, hd]
    rfl

/-- Witness for the amended C3: a reported navigation failure produces the
error outcome, while a reported submission failure still reports success. -/
theorem handlers_error_paths_amended_witness :
    ErrorOutcome lbNone [3]
      (handleInbox lbNone [3] 0 (CollabReply.failure (some "navigation down")) reviewSession)
      ("Navigation failed") ("Navigation failed: " ++ pyOptStr (some "navigation down"))
    ∧ (handleSubmitResponse lbNone [3] 0 (CollabReply.failure (some "SMTP rejected")) true
        reviewSession).result.status = "success" :=
  ⟨(handlers_error_paths_amended lbNone [3] 0 reviewSession).2.2.1 (by decide)
      (some "navigation down"),
    (handlers_error_paths_amended lbNone [3] 0 reviewSession).2.2.2.2.2.2.2 (by decide)
      (by decide) (some "SMTP rejected") true⟩

/-- C8.  Notification hits exactly the registered callbacks, in registration
order, whatever subset of them raises (their faults are caught inside the
loop, so no raise suppresses a later callback); and the listener behaviour
influences neither the result a command returns nor the resulting session
registry. -/
theorem listener_notification_isolation :
    (∀ (lb : ListenerBehavior) (L : List Nat) (e : WorkflowEvent),
        (notify_listeners lb L e).map Notification.listener = L)
    ∧ (∀ (lb lb' : ListenerBehavior) (collab : Collab) (now : Nat) (c : WorkflowController)
        (sid cmd : String),
        (process_command lb collab now c sid cmd).2
          = (process_command lb' collab now c sid cmd).2
        ∧ ((process_command lb collab now c sid cmd).1).sessions
          = ((process_command lb' collab now c sid cmd).1).sessions) :=
  ⟨notify_listeners_map,
    fun lb lb' collab now c sid cmd => process_command_lb_indep lb lb' collab now c sid cmd⟩
